import Mathlib

/-!
Shallow embedding of the filesystem composition and resolution layer from
cpp/src/arrow/filesystem/filesystem.cc: the value types, the default batch
implementations of the abstract FileSystem contract, the SubTreeFileSystem
and SlowFileSystem decorators, and the URI-to-backend resolver.

External leaf utilities (path joining, URI parsing, slash normalization,
status conjunction) are not part of the shown source file; they are modelled
from the specification text and marked as such in their doc comments.
Everything else is translated line-for-line from filesystem.cc.
-/

namespace ArrowFs

deriving instance DecidableEq for Except

/-- Error outcomes used by this layer (kind plus message), mirroring the
Status kinds that appear in filesystem.cc: IOError, Invalid, NotImplemented,
UnknownError, plus a backend-native NotFound used in examples. -/
inductive ArrowError where
  | ioError (msg : String)
  | invalid (msg : String)
  | notImplemented (msg : String)
  | unknownError (msg : String)
  | notFound (msg : String)
deriving DecidableEq, Repr

/-- FileType enumeration from the data model. -/
inductive FileType where
  | NonExistent
  | Unknown
  | File
  | Directory
deriving DecidableEq, Repr

/-- FileInfo value record: abstract path, type, optional size and mtime. -/
structure FileInfo where
  path : String
  ftype : FileType
  size : Option Int
  mtime : Option Nat
deriving DecidableEq, Repr

/-- FileSelector query record. -/
structure FileSelector where
  base_dir : String
  allow_not_found : Bool
  recursive : Bool
deriving DecidableEq, Repr

/-- Stream/file handles returned by the open operations. A leaf backend hands
out a base handle; SlowFileSystem wraps input handles in latency proxies
(SlowInputStream / SlowRandomAccessFile in the source). -/
inductive Handle where
  | base (id : Nat)
  | slowInput (h : Handle)
  | slowRandomAccess (h : Handle)
deriving DecidableEq, Repr

/-- A wrapped (backend) filesystem, as the set of operations the decorators
delegate to. Each operation is the backend as a pure function from arguments
to its outcome. -/
structure FsModel where
  getTargetInfo : String → Except ArrowError FileInfo
  getTargetInfosSelect : FileSelector → Except ArrowError (List FileInfo)
  createDir : String → Bool → Except ArrowError Unit
  deleteDir : String → Except ArrowError Unit
  deleteDirContents : String → Except ArrowError Unit
  deleteFile : String → Except ArrowError Unit
  move : String → String → Except ArrowError Unit
  copyFile : String → String → Except ArrowError Unit
  openInputStream : String → Except ArrowError Handle
  openInputFile : String → Except ArrowError Handle
  openOutputStream : String → Except ArrowError Handle
  openAppendStream : String → Except ArrowError Handle

/-! ### Modelled path utilities (external to filesystem.cc) -/

/-- Modelled from the spec: EnsureTrailingSlash from the external path
utilities — ensure the string ends with a trailing separator, or is empty. -/
def ensureTrailingSlash (s : String) : String :=
  if s = "" then s
  else if s.data.getLast? = some '/' then s
  else s ++ "/"

/-- Modelled from the spec: ConcatAbstractPath from the external path
utilities — standard path join: an empty base yields the stem; otherwise the
base, guaranteed to end in a single separator, is concatenated with the stem
(so no double separators are introduced). -/
def concatAbstractPath (base stem : String) : String :=
  if base = "" then stem else ensureTrailingSlash base ++ stem

/-- Modelled from the spec: ToSlashes from the external path utilities —
convert backslashes to forward slashes. -/
def toSlashes (s : String) : String :=
  String.mk (s.data.map fun c => if c = '\\' then '/' else c)

/-- Modelled from the spec: RemoveLeadingSlash from the external path
utilities — strip any leading slash from the path. -/
def removeLeadingSlash (s : String) : String :=
  String.mk (s.data.dropWhile fun c => c = '/')

/-! ### FileSystem default method implementations (filesystem.cc 120-137) -/

/-- Modelled from the spec: Status conjunction (operator and-assign of the
external Status class) — keeps the first recorded failure, otherwise takes
the right-hand status. -/
def statusAnd (st other : Except ArrowError Unit) : Except ArrowError Unit :=
  match st with
  | .ok _ => other
  | .error e => .error e

/-- FileSystem::GetTargetInfos(paths) (filesystem.cc 120-129): one GetTargetInfo
per path in order, short-circuiting on the first failure. The second component
records which paths were actually passed to the wrapped getTargetInfo. -/
def getTargetInfosList (gi : String → Except ArrowError FileInfo) :
    List String → Except ArrowError (List FileInfo) × List String
  | [] => (.ok [], [])
  | p :: rest =>
    match gi p with
    | .error e => (.error e, [p])
    | .ok info =>
      match getTargetInfosList gi rest with
      | (.error e, tr) => (.error e, p :: tr)
      | (.ok infos, tr) => (.ok (info :: infos), p :: tr)

/-- FileSystem::DeleteFiles(paths) (filesystem.cc 131-137): fold the per-path
delete statuses with statusAnd, starting from OK. The second component records
which paths were actually passed to the wrapped deleteFile. -/
def deleteFiles (del : String → Except ArrowError Unit) (paths : List String) :
    Except ArrowError Unit × List String :=
  paths.foldl (fun acc p => (statusAnd acc.1 (del p), acc.2 ++ [p])) (.ok (), [])

/-- First error in a list of statuses, OK when none fails: the outcome the
spec ascribes to deleteFiles. -/
def firstError : List (Except ArrowError Unit) → Except ArrowError Unit
  | [] => .ok ()
  | .ok _ :: rest => firstError rest
  | .error e :: _ => .error e

/-! ### SubTreeFileSystem (filesystem.cc 142-275) -/

/-- Invariant of the stored base path: NormalizeBasePath passes it through
EnsureTrailingSlash, so it is empty or ends with a separator. -/
def subTreeInvar (basePath : String) : Prop :=
  basePath = "" ∨ basePath.data.getLast? = some '/'

instance (basePath : String) : Decidable (subTreeInvar basePath) :=
  inferInstanceAs (Decidable (_ ∨ _))

/-- SubTreeFileSystem::NormalizeBasePath (filesystem.cc 148-152): normalize
through the wrapped filesystem, then ensure a trailing slash. -/
def normalizeBasePath (normalize : String → Except ArrowError String)
    (basePath : String) : Except ArrowError String :=
  (normalize basePath).map ensureTrailingSlash

/-- SubTreeFileSystem::PrependBase (filesystem.cc 154-160). -/
def prependBase (basePath s : String) : String :=
  if s = "" then basePath else concatAbstractPath basePath s

/-- SubTreeFileSystem::PrependBaseNonEmpty (filesystem.cc 162-169). -/
def prependBaseNonEmpty (basePath s : String) : Except ArrowError String :=
  if s = "" then .error (.ioError "Empty path")
  else .ok (concatAbstractPath basePath s)

/-- SubTreeFileSystem::StripBase (filesystem.cc 171-180): the returned path
must start byte-for-byte with the stored base path, which is removed;
otherwise an UnknownError naming both paths. -/
def stripBase (basePath s : String) : Except ArrowError String :=
  if basePath.length ≤ s.length ∧ String.mk (s.data.take basePath.length) = basePath then
    .ok (String.mk (s.data.drop basePath.length))
  else
    .error (.unknownError ("Underlying filesystem returned path '" ++ s ++
      "', which is not a subpath of '" ++ basePath ++ "'"))

/-- SubTreeFileSystem::FixInfo (filesystem.cc 182-186): strip the base from
the info path in place. -/
def fixInfo (basePath : String) (info : FileInfo) : Except ArrowError FileInfo :=
  match stripBase basePath info.path with
  | .error e => .error e
  | .ok p => .ok { info with path := p }

/-- SubTreeFileSystem::GetTargetInfo (filesystem.cc 193-197). -/
def subTreeGetTargetInfo (basePath : String)
    (gi : String → Except ArrowError FileInfo) (path : String) :
    Except ArrowError FileInfo :=
  match gi (prependBase basePath path) with
  | .error e => .error e
  | .ok info => fixInfo basePath info

/-- SubTreeFileSystem::CreateDir (filesystem.cc 210-214). -/
def subTreeCreateDir (basePath : String) (fs : FsModel) (path : String)
    (recursive : Bool) : Except ArrowError Unit :=
  match prependBaseNonEmpty basePath path with
  | .error e => .error e
  | .ok s => fs.createDir s recursive

/-- SubTreeFileSystem::DeleteDir (filesystem.cc 216-220). -/
def subTreeDeleteDir (basePath : String) (fs : FsModel) (path : String) :
    Except ArrowError Unit :=
  match prependBaseNonEmpty basePath path with
  | .error e => .error e
  | .ok s => fs.deleteDir s

/-- SubTreeFileSystem::DeleteDirContents (filesystem.cc 222-225): plain
PrependBase, then delegate. -/
def subTreeDeleteDirContents (basePath : String) (fs : FsModel) (path : String) :
    Except ArrowError Unit :=
  fs.deleteDirContents (prependBase basePath path)

/-- SubTreeFileSystem::DeleteFile (filesystem.cc 227-231). -/
def subTreeDeleteFile (basePath : String) (fs : FsModel) (path : String) :
    Except ArrowError Unit :=
  match prependBaseNonEmpty basePath path with
  | .error e => .error e
  | .ok s => fs.deleteFile s

/-- SubTreeFileSystem::Move (filesystem.cc 233-239). -/
def subTreeMove (basePath : String) (fs : FsModel) (src dest : String) :
    Except ArrowError Unit :=
  match prependBaseNonEmpty basePath src with
  | .error e => .error e
  | .ok s =>
    match prependBaseNonEmpty basePath dest with
    | .error e => .error e
    | .ok d => fs.move s d

/-- SubTreeFileSystem::CopyFile (filesystem.cc 241-247). -/
def subTreeCopyFile (basePath : String) (fs : FsModel) (src dest : String) :
    Except ArrowError Unit :=
  match prependBaseNonEmpty basePath src with
  | .error e => .error e
  | .ok s =>
    match prependBaseNonEmpty basePath dest with
    | .error e => .error e
    | .ok d => fs.copyFile s d

/-- SubTreeFileSystem::OpenInputStream (filesystem.cc 249-254). -/
def subTreeOpenInputStream (basePath : String) (fs : FsModel) (path : String) :
    Except ArrowError Handle :=
  match prependBaseNonEmpty basePath path with
  | .error e => .error e
  | .ok s => fs.openInputStream s

/-- SubTreeFileSystem::OpenInputFile (filesystem.cc 256-261). -/
def subTreeOpenInputFile (basePath : String) (fs : FsModel) (path : String) :
    Except ArrowError Handle :=
  match prependBaseNonEmpty basePath path with
  | .error e => .error e
  | .ok s => fs.openInputFile s

/-- SubTreeFileSystem::OpenOutputStream (filesystem.cc 263-268). -/
def subTreeOpenOutputStream (basePath : String) (fs : FsModel) (path : String) :
    Except ArrowError Handle :=
  match prependBaseNonEmpty basePath path with
  | .error e => .error e
  | .ok s => fs.openOutputStream s

/-- SubTreeFileSystem::OpenAppendStream (filesystem.cc 270-275). -/
def subTreeOpenAppendStream (basePath : String) (fs : FsModel) (path : String) :
    Except ArrowError Handle :=
  match prependBaseNonEmpty basePath path with
  | .error e => .error e
  | .ok s => fs.openAppendStream s

/-- The string t occurs as a contiguous substring of s. -/
def strContains (s t : String) : Prop :=
  ∃ a b, s = a ++ t ++ b

/-! ### SlowFileSystem (filesystem.cc 280-358)

Each operation sleeps for one generator draw, then delegates. Time is modelled
by explicit state passing: an operation takes the current clock value and
returns its result together with the advanced clock. -/

/-- SlowFileSystem::GetTargetInfo (filesystem.cc 292-295). -/
def slowGetTargetInfo (fs : FsModel) (lat : Nat) (path : String) (t : Nat) :
    Except ArrowError FileInfo × Nat :=
  (fs.getTargetInfo path, t + lat)

/-- SlowFileSystem::GetTargetInfos(selector) (filesystem.cc 297-301). -/
def slowGetTargetInfosSelect (fs : FsModel) (lat : Nat) (sel : FileSelector) (t : Nat) :
    Except ArrowError (List FileInfo) × Nat :=
  (fs.getTargetInfosSelect sel, t + lat)

/-- SlowFileSystem::CreateDir (filesystem.cc 303-306). -/
def slowCreateDir (fs : FsModel) (lat : Nat) (path : String) (recursive : Bool)
    (t : Nat) : Except ArrowError Unit × Nat :=
  (fs.createDir path recursive, t + lat)

/-- SlowFileSystem::DeleteDir (filesystem.cc 308-311). -/
def slowDeleteDir (fs : FsModel) (lat : Nat) (path : String) (t : Nat) :
    Except ArrowError Unit × Nat :=
  (fs.deleteDir path, t + lat)

/-- SlowFileSystem::DeleteDirContents (filesystem.cc 313-316). -/
def slowDeleteDirContents (fs : FsModel) (lat : Nat) (path : String) (t : Nat) :
    Except ArrowError Unit × Nat :=
  (fs.deleteDirContents path, t + lat)

/-- SlowFileSystem::DeleteFile (filesystem.cc 318-321). -/
def slowDeleteFile (fs : FsModel) (lat : Nat) (path : String) (t : Nat) :
    Except ArrowError Unit × Nat :=
  (fs.deleteFile path, t + lat)

/-- SlowFileSystem::Move (filesystem.cc 323-326). -/
def slowMove (fs : FsModel) (lat : Nat) (src dest : String) (t : Nat) :
    Except ArrowError Unit × Nat :=
  (fs.move src dest, t + lat)

/-- SlowFileSystem::CopyFile (filesystem.cc 328-331). -/
def slowCopyFile (fs : FsModel) (lat : Nat) (src dest : String) (t : Nat) :
    Except ArrowError Unit × Nat :=
  (fs.copyFile src dest, t + lat)

/-- SlowFileSystem::OpenInputStream (filesystem.cc 333-338): sleep, delegate,
then wrap the returned stream in a SlowInputStream proxy. -/
def slowOpenInputStream (fs : FsModel) (lat : Nat) (path : String) (t : Nat) :
    Except ArrowError Handle × Nat :=
  match fs.openInputStream path with
  | .error e => (.error e, t + lat)
  | .ok h => (.ok (.slowInput h), t + lat)

/-- SlowFileSystem::OpenInputFile (filesystem.cc 340-345): sleep, delegate,
then wrap the returned file in a SlowRandomAccessFile proxy. -/
def slowOpenInputFile (fs : FsModel) (lat : Nat) (path : String) (t : Nat) :
    Except ArrowError Handle × Nat :=
  match fs.openInputFile path with
  | .error e => (.error e, t + lat)
  | .ok h => (.ok (.slowRandomAccess h), t + lat)

/-- SlowFileSystem::OpenOutputStream (filesystem.cc 347-352): sleep, delegate,
return the stream unmodified. -/
def slowOpenOutputStream (fs : FsModel) (lat : Nat) (path : String) (t : Nat) :
    Except ArrowError Handle × Nat :=
  (fs.openOutputStream path, t + lat)

/-- SlowFileSystem::OpenAppendStream (filesystem.cc 354-358): sleep, delegate,
return the stream unmodified. -/
def slowOpenAppendStream (fs : FsModel) (lat : Nat) (path : String) (t : Nat) :
    Except ArrowError Handle × Nat :=
  (fs.openAppendStream path, t + lat)

/-! ### Resolver (filesystem.cc 360-468) -/

/-- Decomposed URI, as produced by the external URI parser: scheme and path
(host/port/query components are consumed only by backend option parsers and
are not modelled individually). -/
structure UriRec where
  scheme : String
  path : String
deriving DecidableEq, Repr

instance : Inhabited UriRec := ⟨⟨"", ""⟩⟩

/-- FileSystemUri (filesystem.cc 362-367): parsed URI plus extracted scheme,
path and locality flag. -/
structure FileSystemUri where
  uri : UriRec
  scheme : String
  path : String
  is_local : Bool
deriving DecidableEq, Repr

/-- ParseFileSystemUri (filesystem.cc 369-389). The external URI parser is a
parameter; on Windows, a failed parse is retried with backslashes converted
to slashes, and the retry is accepted only when its scheme is exactly
file (otherwise the original parse error is returned). -/
def parseFileSystemUri (uriParse : String → Except ArrowError UriRec)
    (isWindows : Bool) (uriString : String) : Except ArrowError FileSystemUri :=
  match uriParse uriString with
  | .ok u =>
    .ok { uri := u, scheme := u.scheme, path := u.path, is_local := u.scheme = "file" }
  | .error st =>
    if isWindows then
      match uriParse (toSlashes uriString) with
      | .error e2 => .error e2
      | .ok u2 =>
        if u2.scheme ≠ "file" then .error st
        else .ok { uri := u2, scheme := u2.scheme, path := u2.path,
                   is_local := u2.scheme = "file" }
    else .error st

/-- ParseFileSystemUriOrPath (filesystem.cc 391-399): a detected absolute
local path short-circuits URI parsing entirely (a default-constructed
FileSystemUri with the path and the locality flag set). -/
def parseFileSystemUriOrPath (uriParse : String → Except ArrowError UriRec)
    (isWindows : Bool) (detectAbsolutePath : String → Bool) (uriString : String) :
    Except ArrowError FileSystemUri :=
  if detectAbsolutePath uriString then
    .ok { uri := default, scheme := "", path := uriString, is_local := true }
  else parseFileSystemUri uriParse isWindows uriString

/-- Concrete backend handles the resolver can return. -/
inductive FSHandle where
  | localFS
  | hadoopFS (u : UriRec)
  | s3FS (u : UriRec)
  | mockFS (creationTime : Nat)
deriving DecidableEq, Repr

/-- FileSystemFromUriReal (filesystem.cc 401-445). Compile-time backend
availability (the ARROW_HDFS / ARROW_S3 ifdefs) is a pair of capability
flags; the hdfs and s3 option parsing and construction are parameters
(hdfsMake, s3Resolve — the latter may rewrite the out-parameter, as
S3Options::FromUri does); mock creation time is a parameter. The
out-parameter is an Option String: none models a null pointer, some v the
current pointee. The result pairs the returned filesystem (or error) with
the final out-parameter state. -/
def fileSystemFromUriReal (hdfsEnabled s3Enabled : Bool)
    (hdfsMake : UriRec → Except ArrowError FSHandle)
    (s3Resolve : UriRec → Option String → Except ArrowError (FSHandle × Option String))
    (now : Nat) (fsuri : FileSystemUri) (uriString : String)
    (outPath : Option String) : Except ArrowError FSHandle × Option String :=
  let out0 : Option String := outPath.map fun _ => fsuri.path
  if fsuri.is_local then
    (.ok .localFS, out0.map toSlashes)
  else if fsuri.scheme = "hdfs" ∨ fsuri.scheme = "viewfs" then
    if hdfsEnabled then (hdfsMake fsuri.uri, out0)
    else (.error (.notImplemented "Got HDFS URI but Arrow compiled without HDFS support"),
          out0)
  else if fsuri.scheme = "s3" then
    if s3Enabled then
      match s3Resolve fsuri.uri out0 with
      | .error e => (.error e, out0)
      | .ok (fs, out1) => (.ok fs, out1)
    else (.error (.notImplemented "Got S3 URI but Arrow compiled without S3 support"),
          out0)
  else
    let out1 := out0.map removeLeadingSlash
    if fsuri.scheme = "mock" then (.ok (.mockFS now), out1)
    else (.error (.invalid ("Unrecognized filesystem type in URI: " ++ uriString)), out1)

/-- FileSystemFromUri (filesystem.cc 449-453): parse strictly as a URI, then
resolve; a parse failure propagates unchanged and leaves the out-parameter
untouched. -/
def fileSystemFromUri (uriParse : String → Except ArrowError UriRec)
    (isWindows hdfsEnabled s3Enabled : Bool)
    (hdfsMake : UriRec → Except ArrowError FSHandle)
    (s3Resolve : UriRec → Option String → Except ArrowError (FSHandle × Option String))
    (now : Nat) (uriString : String) (outPath : Option String) :
    Except ArrowError FSHandle × Option String :=
  match parseFileSystemUri uriParse isWindows uriString with
  | .error e => (.error e, outPath)
  | .ok fsuri => fileSystemFromUriReal hdfsEnabled s3Enabled hdfsMake s3Resolve now
      fsuri uriString outPath

/-- FileSystemFromUriOrPath (filesystem.cc 455-463): parse tolerantly (URI or
absolute path); a parse failure propagates unchanged, while a resolution
failure after a successful parse is re-signalled as an Invalid error. -/
def fileSystemFromUriOrPath (uriParse : String → Except ArrowError UriRec)
    (isWindows : Bool) (detectAbsolutePath : String → Bool)
    (hdfsEnabled s3Enabled : Bool)
    (hdfsMake : UriRec → Except ArrowError FSHandle)
    (s3Resolve : UriRec → Option String → Except ArrowError (FSHandle × Option String))
    (now : Nat) (uriString : String) (outPath : Option String) :
    Except ArrowError FSHandle × Option String :=
  match parseFileSystemUriOrPath uriParse isWindows detectAbsolutePath uriString with
  | .error e => (.error e, outPath)
  | .ok fsuri =>
    match fileSystemFromUriReal hdfsEnabled s3Enabled hdfsMake s3Resolve now
      fsuri uriString outPath with
    | (.ok fs, out1) => (.ok fs, out1)
    | (.error _, out1) =>
      (.error (.invalid ("Expected URI or absolute local path, got '" ++ uriString ++ "'")),
       out1)

/-! ### Concrete sample instances for witnesses and counterexamples -/

/-- A tiny concrete backend: every metadata query succeeds with a file info
for the queried path, every open returns a base handle, every mutation
succeeds. -/
def sampleFs : FsModel where
  getTargetInfo := fun p => .ok ⟨p, .File, none, none⟩
  getTargetInfosSelect := fun _ => .ok []
  createDir := fun _ _ => .ok ()
  deleteDir := fun _ => .ok ()
  deleteDirContents := fun _ => .ok ()
  deleteFile := fun _ => .ok ()
  move := fun _ _ => .ok ()
  copyFile := fun _ _ => .ok ()
  openInputStream := fun _ => .ok (.base 0)
  openInputFile := fun _ => .ok (.base 1)
  openOutputStream := fun _ => .ok (.base 2)
  openAppendStream := fun _ => .ok (.base 3)

/-- Modelled from the spec: a URI parser behaviour on an input that is not a
valid URI — it fails with its own parse error naming the input. Used to
instantiate the parser parameter at one concrete failing input. -/
def sampleParseFail : String → Except ArrowError UriRec :=
  fun s => .error (.invalid ("Cannot parse URI: " ++ s))

/-- A URI parser behaviour on an input with an unrecognized scheme: parses
successfully with scheme foo. -/
def sampleParseFoo : String → Except ArrowError UriRec :=
  fun _ => .ok ⟨"foo", "bar"⟩

/-- Dummy hdfs constructor parameter for witnesses (never reached there). -/
def sampleHdfsMake : UriRec → Except ArrowError FSHandle :=
  fun u => .ok (.hadoopFS u)

/-- Dummy s3 resolver parameter for witnesses (never reached there). -/
def sampleS3Resolve : UriRec → Option String → Except ArrowError (FSHandle × Option String) :=
  fun u o => .ok (.s3FS u, o)

/-! ### Helper lemmas -/

theorem strData_append (a b : String) : (a ++ b).data = a.data ++ b.data := rfl

theorem strLength_eq (s : String) : s.length = s.data.length := rfl

theorem strAppend_assoc (a b c : String) : a ++ b ++ c = a ++ (b ++ c) :=
  String.ext (List.append_assoc _ _ _)

theorem strAppend_empty_right (a : String) : a ++ "" = a :=
  String.ext (List.append_nil _)

theorem strEmpty_append (a : String) : "" ++ a = a :=
  String.ext rfl

theorem prependBase_empty (basePath : String) :
    prependBase basePath "" = basePath := by
  unfold prependBase
  rw [if_pos rfl]

theorem prependBase_eq_append (basePath s : String) (hbase : subTreeInvar basePath)
    (hs : s ≠ "") : prependBase basePath s = basePath ++ s := by
  unfold prependBase concatAbstractPath ensureTrailingSlash
  rw [if_neg hs]
  by_cases hb : basePath = ""
  · rw [if_pos hb, hb, strEmpty_append]
  · rcases hbase with h | h
    · exact absurd h hb
    · rw [if_neg hb, if_neg hb, if_pos h]

theorem stripBase_append (basePath p : String) :
    stripBase basePath (basePath ++ p) = .ok p := by
  unfold stripBase
  rw [if_pos]
  · congr 1
    apply String.ext
    show (basePath.data ++ p.data).drop basePath.data.length = p.data
    simp
  · constructor
    · show basePath.data.length ≤ (basePath.data ++ p.data).length
      simp
    · apply String.ext
      show (basePath.data ++ p.data).take basePath.data.length = basePath.data
      simp

theorem stripBase_self (basePath : String) :
    stripBase basePath basePath = .ok "" := by
  have h := stripBase_append basePath ""
  rwa [strAppend_empty_right] at h

theorem prependBaseNonEmpty_empty (basePath : String) :
    prependBaseNonEmpty basePath "" = .error (.ioError "Empty path") := by
  unfold prependBaseNonEmpty
  rw [if_pos rfl]

/-! ### Claim theorems -/

/-- Claim C1: for every SubTreeFileSystem base path (normalized: empty or
slash-terminated) and every non-empty abstract path p, stripping the base
after prepending it yields p back; and every wrapped-backend path q that
genuinely lies under the subtree (byte-for-byte prefix) strips to a request
path whose prepend is q again. -/
theorem subtree_prepend_strip_round_trip
    (basePath p q : String)
    (hbase : subTreeInvar basePath)
    (hp : p ≠ "")
    (hq : basePath.length ≤ q.length ∧
      String.mk (q.data.take basePath.length) = basePath) :
    stripBase basePath (prependBase basePath p) = .ok p ∧
    ∃ r, stripBase basePath q = .ok r ∧ prependBase basePath r = q := by
  constructor
  · rw [prependBase_eq_append basePath p hbase hp, stripBase_append]
  · have htake : q.data.take basePath.length = basePath.data :=
      congrArg String.data hq.2
    refine ⟨String.mk (q.data.drop basePath.length), ?_, ?_⟩
    · unfold stripBase
      rw [if_pos hq]
    · by_cases hr : String.mk (q.data.drop basePath.length) = ""
      · have hdrop : q.data.drop basePath.length = [] := congrArg String.data hr
        rw [hr, prependBase_empty]
        apply String.ext
        have := List.take_append_drop basePath.length q.data
        rw [hdrop, List.append_nil] at this
        rw [← this, htake]
      · rw [prependBase_eq_append basePath _ hbase hr]
        apply String.ext
        show basePath.data ++ q.data.drop basePath.length = q.data
        rw [← htake]
        exact List.take_append_drop basePath.length q.data

/-- Claim C1 witness at base path a/b/ with p = x and q = a/b/y. -/
theorem subtree_prepend_strip_round_trip_witness :
    stripBase "a/b/" (prependBase "a/b/" "x") = .ok "x" ∧
    ∃ r, stripBase "a/b/" "a/b/y" = .ok r ∧ prependBase "a/b/" r = "a/b/y" :=
  subtree_prepend_strip_round_trip "a/b/" "x" "a/b/y"
    (Or.inr (by decide)) (by decide) (by decide)

/-- Claim C2: when the wrapped backend returns a path q that does not start
byte-for-byte with the stored base path, StripBase (and FixInfo on a FileInfo
carrying that path) fails with an UnknownError whose message contains both q
and the base path; no path is returned. -/
theorem subtree_strip_escape_unknown_error
    (basePath q : String) (info : FileInfo)
    (h : ¬ (basePath.length ≤ q.length ∧
      String.mk (q.data.take basePath.length) = basePath))
    (hi : info.path = q) :
    ∃ msg, stripBase basePath q = .error (.unknownError msg) ∧
      fixInfo basePath info = .error (.unknownError msg) ∧
      strContains msg q ∧ strContains msg basePath := by
  have hstrip : stripBase basePath q = .error (.unknownError
      ("Underlying filesystem returned path '" ++ q ++
        "', which is not a subpath of '" ++ basePath ++ "'")) := by
    unfold stripBase
    rw [if_neg h]
  refine ⟨_, hstrip, ?_, ?_, ?_⟩
  · unfold fixInfo
    rw [hi, hstrip]
  · exact ⟨"Underlying filesystem returned path '",
      "', which is not a subpath of '" ++ basePath ++ "'",
      by apply String.ext; simp [strData_append, List.append_assoc]⟩
  · exact ⟨"Underlying filesystem returned path '" ++ q ++
      "', which is not a subpath of '", "'",
      by apply String.ext; simp [strData_append, List.append_assoc]⟩

/-- Claim C2 witness: base path a/b/, backend-returned path a/c/x. -/
theorem subtree_strip_escape_unknown_error_witness :
    ∃ msg, stripBase "a/b/" "a/c/x" = .error (.unknownError msg) ∧
      fixInfo "a/b/" ⟨"a/c/x", .File, none, none⟩ = .error (.unknownError msg) ∧
      strContains msg "a/c/x" ∧ strContains msg "a/b/" :=
  subtree_strip_escape_unknown_error "a/b/" "a/c/x" ⟨"a/c/x", .File, none, none⟩
    (by decide) rfl

/-- Claim C3: on a SubTreeFileSystem, GetTargetInfo with the empty path
translates the request to the base path itself, and when the wrapped
filesystem succeeds there (reporting the queried path), the call succeeds
with a FileInfo whose path is the request-side root (the empty path). -/
theorem subtree_get_info_empty_path_root
    (basePath : String) (gi : String → Except ArrowError FileInfo)
    (info : FileInfo)
    (h : gi basePath = .ok info) (hpath : info.path = basePath) :
    prependBase basePath "" = basePath ∧
    subTreeGetTargetInfo basePath gi "" = .ok { info with path := "" } := by
  have hfix : fixInfo basePath info = .ok { info with path := "" } := by
    unfold fixInfo
    rw [hpath, stripBase_self]
  refine ⟨prependBase_empty basePath, ?_⟩
  unfold subTreeGetTargetInfo
  rw [prependBase_empty, h]
  exact hfix

/-- Claim C3 witness: base path a/b/ over a backend answering every query. -/
theorem subtree_get_info_empty_path_root_witness :
    prependBase "a/b/" "" = "a/b/" ∧
    subTreeGetTargetInfo "a/b/" (fun p => .ok ⟨p, .Directory, none, none⟩) ""
      = .ok ⟨"", .Directory, none, none⟩ :=
  subtree_get_info_empty_path_root "a/b/"
    (fun p => .ok ⟨p, .Directory, none, none⟩)
    ⟨"a/b/", .Directory, none, none⟩ rfl rfl

/-- Claim C4: every subtree operation that must target a concrete entry
(create_dir, delete_dir, delete_file, move and copy_file on either argument,
and all four stream opens) rejects the empty path with IOError "Empty path"
for every wrapped filesystem (so the wrapped filesystem is never consulted),
while delete_dir_contents with the empty path delegates to the wrapped
filesystem at the subtree root. -/
theorem subtree_empty_path_io_error
    (basePath : String) (fs : FsModel) (r : Bool) (p : String) :
    subTreeCreateDir basePath fs "" r = .error (.ioError "Empty path") ∧
    subTreeDeleteDir basePath fs "" = .error (.ioError "Empty path") ∧
    subTreeDeleteFile basePath fs "" = .error (.ioError "Empty path") ∧
    subTreeMove basePath fs "" p = .error (.ioError "Empty path") ∧
    subTreeMove basePath fs p "" = .error (.ioError "Empty path") ∧
    subTreeCopyFile basePath fs "" p = .error (.ioError "Empty path") ∧
    subTreeCopyFile basePath fs p "" = .error (.ioError "Empty path") ∧
    subTreeOpenInputStream basePath fs "" = .error (.ioError "Empty path") ∧
    subTreeOpenInputFile basePath fs "" = .error (.ioError "Empty path") ∧
    subTreeOpenOutputStream basePath fs "" = .error (.ioError "Empty path") ∧
    subTreeOpenAppendStream basePath fs "" = .error (.ioError "Empty path") ∧
    subTreeDeleteDirContents basePath fs "" = fs.deleteDirContents basePath := by
  have hE := prependBaseNonEmpty_empty basePath
  refine ⟨?_, ?_, ?_, ?_, ?_, ?_, ?_, ?_, ?_, ?_, ?_, ?_⟩
  · unfold subTreeCreateDir; rw [hE]
  · unfold subTreeDeleteDir; rw [hE]
  · unfold subTreeDeleteFile; rw [hE]
  · unfold subTreeMove; rw [hE]
  · by_cases hp : p = "" <;> simp [subTreeMove, prependBaseNonEmpty, hp]
  · unfold subTreeCopyFile; rw [hE]
  · by_cases hp : p = "" <;> simp [subTreeCopyFile, prependBaseNonEmpty, hp]
  · unfold subTreeOpenInputStream; rw [hE]
  · unfold subTreeOpenInputFile; rw [hE]
  · unfold subTreeOpenOutputStream; rw [hE]
  · unfold subTreeOpenAppendStream; rw [hE]
  · unfold subTreeDeleteDirContents
    rw [prependBase_empty]

/-- Claim C5 counterexample: a SlowFileSystem does not return exactly the
wrapped result for every operation — OpenInputStream wraps the backend handle
in a latency proxy, so the payload differs from the backend payload. -/
theorem slow_fs_same_payload_counterexample :
    (slowOpenInputStream sampleFs 1 "f" 0).1 ≠ sampleFs.openInputStream "f" := by
  decide

/-- Claim C5 (amended): every SlowFileSystem operation preserves the wrapped
backend's outcome, advancing only the clock by the generator draw; all
operations except OpenInputStream and OpenInputFile return the identical
payload, while those two return the backend's handle wrapped in a
latency-injecting proxy. -/
theorem slow_fs_latency_transparency
    (fs : FsModel) (lat t : Nat) (path src dest : String) (r : Bool)
    (sel : FileSelector) :
    slowGetTargetInfo fs lat path t = (fs.getTargetInfo path, t + lat) ∧
    slowGetTargetInfosSelect fs lat sel t = (fs.getTargetInfosSelect sel, t + lat) ∧
    slowCreateDir fs lat path r t = (fs.createDir path r, t + lat) ∧
    slowDeleteDir fs lat path t = (fs.deleteDir path, t + lat) ∧
    slowDeleteDirContents fs lat path t = (fs.deleteDirContents path, t + lat) ∧
    slowDeleteFile fs lat path t = (fs.deleteFile path, t + lat) ∧
    slowMove fs lat src dest t = (fs.move src dest, t + lat) ∧
    slowCopyFile fs lat src dest t = (fs.copyFile src dest, t + lat) ∧
    slowOpenInputStream fs lat path t
      = ((fs.openInputStream path).map Handle.slowInput, t + lat) ∧
    slowOpenInputFile fs lat path t
      = ((fs.openInputFile path).map Handle.slowRandomAccess, t + lat) ∧
    slowOpenOutputStream fs lat path t = (fs.openOutputStream path, t + lat) ∧
    slowOpenAppendStream fs lat path t = (fs.openAppendStream path, t + lat) := by
  refine ⟨rfl, rfl, rfl, rfl, rfl, rfl, rfl, rfl, ?_, ?_, rfl, rfl⟩
  · unfold slowOpenInputStream
    cases fs.openInputStream path <;> rfl
  · unfold slowOpenInputFile
    cases fs.openInputFile path <;> rfl

theorem deleteFiles_foldl_spec (del : String → Except ArrowError Unit)
    (paths : List String) (st0 : Except ArrowError Unit) (tr0 : List String) :
    paths.foldl (fun acc p => (statusAnd acc.1 (del p), acc.2 ++ [p])) (st0, tr0)
      = (statusAnd st0 (firstError (paths.map del)), tr0 ++ paths) := by
  induction paths generalizing st0 tr0 with
  | nil =>
    simp only [List.foldl_nil, List.map_nil, firstError, List.append_nil]
    cases st0 with
    | ok u => cases u; rfl
    | error e => rfl
  | cons p rest ih =>
    simp only [List.foldl_cons, List.map_cons]
    rw [ih]
    congr 1
    · cases hd : del p with
      | ok u =>
        cases u
        cases st0 with
        | ok u0 => cases u0; simp [statusAnd, firstError, hd]
        | error e0 => simp [statusAnd, firstError, hd]
      | error e =>
        cases st0 with
        | ok u0 => cases u0; simp [statusAnd, firstError, hd]
        | error e0 => simp [statusAnd, firstError, hd]
    · simp

/-- Claim C6: the default DeleteFiles attempts deletion of every path in the
list, in order and without short-circuiting (the attempted-call trace equals
the whole input list), and its status is the first recorded failure among the
per-path outcomes, or OK when none failed. -/
theorem delete_files_attempts_all_returns_first_error
    (del : String → Except ArrowError Unit) (paths : List String) :
    (deleteFiles del paths).2 = paths ∧
    (deleteFiles del paths).1 = firstError (paths.map del) := by
  unfold deleteFiles
  rw [deleteFiles_foldl_spec]
  constructor
  · simp
  · cases firstError (paths.map del) with
    | ok u => cases u; rfl
    | error e => rfl

/-- Claim C7: the default list-of-paths GetTargetInfos calls GetTargetInfo on
each path in input order: when every path succeeds it returns all FileInfos
in input order having consulted exactly the input paths; when some path fails
it returns that first error having consulted exactly the paths up to and
including the failing one — the paths after it are never evaluated. -/
theorem get_target_infos_in_order_short_circuit
    (gi : String → Except ArrowError FileInfo) (g : String → FileInfo)
    (paths pre post : List String) (bad : String) (e : ArrowError) :
    ((∀ p ∈ paths, gi p = .ok (g p)) →
      getTargetInfosList gi paths = (.ok (paths.map g), paths)) ∧
    ((∀ p ∈ pre, gi p = .ok (g p)) → gi bad = .error e →
      getTargetInfosList gi (pre ++ bad :: post) = (.error e, pre ++ [bad])) := by
  constructor
  · intro hall
    induction paths with
    | nil => rfl
    | cons p rest ih =>
      have hp : gi p = .ok (g p) := hall p (List.mem_cons_self p rest)
      have hrest := ih fun q hq => hall q (List.mem_cons_of_mem p hq)
      unfold getTargetInfosList
      rw [hp, hrest]
      rfl
  · intro hpre hbad
    induction pre with
    | nil =>
      simp only [List.nil_append]
      unfold getTargetInfosList
      rw [hbad]
    | cons p rest ih =>
      have hp : gi p = .ok (g p) := hpre p (List.mem_cons_self p rest)
      have hrest := ih fun q hq => hpre q (List.mem_cons_of_mem p hq)
      simp only [List.cons_append]
      unfold getTargetInfosList
      rw [hp, hrest]

/-- Claim C7 witness: over a backend failing exactly on the path m, the
all-success list is traversed fully and the failing list stops at m. -/
theorem get_target_infos_in_order_short_circuit_witness :
    getTargetInfosList
        (fun p => if p = "m" then .error (.notFound "m")
          else .ok ⟨p, .File, none, none⟩) ["a", "b"]
      = (.ok [⟨"a", .File, none, none⟩, ⟨"b", .File, none, none⟩], ["a", "b"]) ∧
    getTargetInfosList
        (fun p => if p = "m" then .error (.notFound "m")
          else .ok ⟨p, .File, none, none⟩) (["a"] ++ "m" :: ["c"])
      = (.error (.notFound "m"), ["a"] ++ ["m"]) :=
  ⟨(get_target_infos_in_order_short_circuit
      (fun p => if p = "m" then .error (.notFound "m")
        else .ok ⟨p, .File, none, none⟩)
      (fun p => ⟨p, .File, none, none⟩) ["a", "b"] ["a"] ["c"] "m"
      (.notFound "m")).1 (by decide),
   (get_target_infos_in_order_short_circuit
      (fun p => if p = "m" then .error (.notFound "m")
        else .ok ⟨p, .File, none, none⟩)
      (fun p => ⟨p, .File, none, none⟩) ["a", "b"] ["a"] ["c"] "m"
      (.notFound "m")).2 (by decide) (by decide)⟩

/-- Claim C8: when the parsed URI is not local and its scheme is none of
hdfs, viewfs, s3, mock, resolution fails with an Invalid error whose message
contains both the unrecognized scheme (which occurs inside the original URI
string) and the original URI string. -/
theorem resolver_unrecognized_scheme_invalid
    (hdfsE s3E : Bool) (hm : UriRec → Except ArrowError FSHandle)
    (s3r : UriRec → Option String → Except ArrowError (FSHandle × Option String))
    (now : Nat) (fsuri : FileSystemUri) (uriString : String) (outP : Option String)
    (hnl : fsuri.is_local = false)
    (h1 : fsuri.scheme ≠ "hdfs") (h2 : fsuri.scheme ≠ "viewfs")
    (h3 : fsuri.scheme ≠ "s3") (h4 : fsuri.scheme ≠ "mock")
    (hsub : strContains uriString fsuri.scheme) :
    ∃ msg, (fileSystemFromUriReal hdfsE s3E hm s3r now fsuri uriString outP).1
        = .error (.invalid msg) ∧
      strContains msg fsuri.scheme ∧ strContains msg uriString := by
  have hres : (fileSystemFromUriReal hdfsE s3E hm s3r now fsuri uriString outP).1
      = .error (.invalid ("Unrecognized filesystem type in URI: " ++ uriString)) := by
    unfold fileSystemFromUriReal
    simp [hnl, h1, h2, h3, h4]
  refine ⟨_, hres, ?_, ?_⟩
  · obtain ⟨a, b, hab⟩ := hsub
    refine ⟨"Unrecognized filesystem type in URI: " ++ a, b, ?_⟩
    rw [hab]
    apply String.ext
    simp [strData_append, List.append_assoc]
  · exact ⟨"Unrecognized filesystem type in URI: ", "",
      (strAppend_empty_right _).symm⟩

/-- Claim C8 witness at the URI foo://bar with scheme foo. -/
theorem resolver_unrecognized_scheme_invalid_witness :
    ∃ msg, (fileSystemFromUriReal false false sampleHdfsMake sampleS3Resolve 0
        ⟨⟨"foo", "bar"⟩, "foo", "bar", false⟩ "foo://bar" none).1
        = .error (.invalid msg) ∧
      strContains msg "foo" ∧ strContains msg "foo://bar" :=
  resolver_unrecognized_scheme_invalid false false sampleHdfsMake sampleS3Resolve 0
    ⟨⟨"foo", "bar"⟩, "foo", "bar", false⟩ "foo://bar" none rfl
    (by decide) (by decide) (by decide) (by decide)
    ⟨"", "://bar", by decide⟩

/-- Claim C9 counterexample: on an input the URI parser rejects, the
path-tolerant entry point propagates the parser's own error unchanged; the
message is not the expected-URI-or-absolute-local-path one the claim
requires. -/
theorem uri_or_path_parse_error_counterexample :
    fileSystemFromUriOrPath sampleParseFail false (fun _ => false) false false
        sampleHdfsMake sampleS3Resolve 0 "not a uri" none
      = (.error (.invalid "Cannot parse URI: not a uri"), none) ∧
    ("Cannot parse URI: not a uri" : String)
      ≠ "Expected URI or absolute local path, got 'not a uri'" :=
  ⟨by decide, by decide⟩

/-- Claim C9 (amended): when the input is neither a detected absolute path
nor accepted by the URI parser, the tolerant entry point propagates the
parser's error unchanged (leaving the out-parameter untouched); when the
input does parse but backend resolution then fails, the failure is
re-signalled as an Invalid error stating that a URI or absolute local path
was expected. -/
theorem uri_or_path_failure_remapping
    (uriParse : String → Except ArrowError UriRec) (isWindows : Bool)
    (detectAbsolutePath : String → Bool) (hdfsE s3E : Bool)
    (hm : UriRec → Except ArrowError FSHandle)
    (s3r : UriRec → Option String → Except ArrowError (FSHandle × Option String))
    (now : Nat) (uriString : String) (outP : Option String) :
    (∀ e, parseFileSystemUriOrPath uriParse isWindows detectAbsolutePath uriString
        = .error e →
      fileSystemFromUriOrPath uriParse isWindows detectAbsolutePath hdfsE s3E
        hm s3r now uriString outP = (.error e, outP)) ∧
    (∀ fsuri err,
      parseFileSystemUriOrPath uriParse isWindows detectAbsolutePath uriString
        = .ok fsuri →
      (fileSystemFromUriReal hdfsE s3E hm s3r now fsuri uriString outP).1
        = .error err →
      (fileSystemFromUriOrPath uriParse isWindows detectAbsolutePath hdfsE s3E
          hm s3r now uriString outP).1
        = .error (.invalid
            ("Expected URI or absolute local path, got '" ++ uriString ++ "'"))) := by
  constructor
  · intro e he
    unfold fileSystemFromUriOrPath
    rw [he]
  · intro fsuri err hok herr
    rcases hfs : fileSystemFromUriReal hdfsE s3E hm s3r now fsuri uriString outP
      with ⟨res, out1⟩
    rw [hfs] at herr
    have hres : res = Except.error err := herr
    subst hres
    simp only [fileSystemFromUriOrPath, hok, hfs]

/-- Claim C9 (amended) witness: a parser-rejected input propagates the
parse error; a parsed URI with unrecognized scheme is re-signalled as the
expected-URI-or-path Invalid error. -/
theorem uri_or_path_failure_remapping_witness :
    fileSystemFromUriOrPath sampleParseFail false (fun _ => false) false false
        sampleHdfsMake sampleS3Resolve 0 "not a uri" none
      = (.error (.invalid "Cannot parse URI: not a uri"), none) ∧
    (fileSystemFromUriOrPath sampleParseFoo false (fun _ => false) false false
        sampleHdfsMake sampleS3Resolve 0 "foo://bar" none).1
      = .error (.invalid "Expected URI or absolute local path, got 'foo://bar'") :=
  ⟨(uri_or_path_failure_remapping sampleParseFail false (fun _ => false) false false
      sampleHdfsMake sampleS3Resolve 0 "not a uri" none).1
      (.invalid "Cannot parse URI: not a uri") (by decide),
   (uri_or_path_failure_remapping sampleParseFoo false (fun _ => false) false false
      sampleHdfsMake sampleS3Resolve 0 "foo://bar" none).2
      ⟨⟨"foo", "bar"⟩, "foo", "bar", false⟩
      (.invalid "Unrecognized filesystem type in URI: foo://bar")
      (by decide) (by decide)⟩

/-- Claim C10: with a non-null out-parameter, the resolver writes the parsed
residual path into it before scheme dispatch, independently of the previous
pointee: a compiled-out hdfs/viewfs or s3 scheme fails NotImplemented with
the out-parameter holding the parsed path; a mock or unrecognized scheme
first strips the leading slash (unrecognized then fails Invalid); a local
URI leaves the slash-normalized path. -/
theorem resolver_out_param_overwritten
    (hdfsE s3E : Bool) (hm : UriRec → Except ArrowError FSHandle)
    (s3r : UriRec → Option String → Except ArrowError (FSHandle × Option String))
    (now : Nat) (u : UriRec) (p sch uriString v : String) :
    fileSystemFromUriReal false s3E hm s3r now ⟨u, "hdfs", p, false⟩ uriString (some v)
      = (.error (.notImplemented "Got HDFS URI but Arrow compiled without HDFS support"),
         some p) ∧
    fileSystemFromUriReal false s3E hm s3r now ⟨u, "viewfs", p, false⟩ uriString (some v)
      = (.error (.notImplemented "Got HDFS URI but Arrow compiled without HDFS support"),
         some p) ∧
    fileSystemFromUriReal hdfsE false hm s3r now ⟨u, "s3", p, false⟩ uriString (some v)
      = (.error (.notImplemented "Got S3 URI but Arrow compiled without S3 support"),
         some p) ∧
    fileSystemFromUriReal hdfsE s3E hm s3r now ⟨u, "mock", p, false⟩ uriString (some v)
      = (.ok (.mockFS now), some (removeLeadingSlash p)) ∧
    (sch ≠ "hdfs" → sch ≠ "viewfs" → sch ≠ "s3" → sch ≠ "mock" →
      fileSystemFromUriReal hdfsE s3E hm s3r now ⟨u, sch, p, false⟩ uriString (some v)
        = (.error (.invalid ("Unrecognized filesystem type in URI: " ++ uriString)),
           some (removeLeadingSlash p))) ∧
    (fileSystemFromUriReal hdfsE s3E hm s3r now ⟨u, sch, p, true⟩ uriString (some v)).2
      = some (toSlashes p) := by
  refine ⟨?_, ?_, ?_, ?_, ?_, ?_⟩
  · simp [fileSystemFromUriReal]
  · simp [fileSystemFromUriReal]
  · simp [fileSystemFromUriReal]
  · simp [fileSystemFromUriReal]
  · intro h1 h2 h3 h4
    simp [fileSystemFromUriReal, h1, h2, h3, h4]
  · simp [fileSystemFromUriReal]

/-- Claim C10 witness: an unrecognized scheme foo with residual path /pp and
previous pointee old ends with Invalid and the out-parameter overwritten with
the slash-stripped path pp. -/
theorem resolver_out_param_overwritten_witness :
    fileSystemFromUriReal false false sampleHdfsMake sampleS3Resolve 7
        ⟨⟨"x", "y"⟩, "foo", "/pp", false⟩ "foo:///pp" (some "old")
      = (.error (.invalid "Unrecognized filesystem type in URI: foo:///pp"),
         some "pp") := by
  have h := (resolver_out_param_overwritten false false sampleHdfsMake
    sampleS3Resolve 7 ⟨"x", "y"⟩ "/pp" "foo" "foo:///pp" "old").2.2.2.2.1
    (by decide) (by decide) (by decide) (by decide)
  exact h.trans (by decide)

end ArrowFs
